import Mathlib

/-!
Verification development for the schedule-change workflow of a school-management
backend.  The definitions below are a shallow embedding of:

* the slot synchronizer (source: syncTeacherSlotToCourseSlot),
* the admin approve / decline endpoints for schedule-change requests,
* the teacher endpoint submitting a schedule-change request.

Machine conventions: database text columns are String, nullable columns are
Option String, JavaScript truthiness of a (possibly null) string value is
modelled by the predicate truthy below (null and the empty string are falsy,
all other strings truthy).  The persistent store is modelled by explicit lists
of rows; store failures are modelled by boolean failure flags in an
environment, mirroring exactly which operations the source checks errors on.
-/

namespace Backend

/-- JavaScript truthiness of a nullable string: null and "" are falsy. -/
def truthy : Option String → Bool
  | none => false
  | some s => s != ""

/-- The JavaScript idiom v || null : falsy values are stored as null. -/
def normOpt (o : Option String) : Option String :=
  if truthy o then o else none

/-- Row of the course_schedule_slots table. -/
structure CourseSlot where
  id : String
  course_id : Option String
  teacher_id : Option String
  day_of_week : String
  start_time : String
  end_time : String
  location : Option String
  notes : Option String
deriving Repr, DecidableEq

/-- Row of the teacher_schedule_slots table. -/
structure TeacherSlot where
  id : String
  teacher_id : Option String
  course_id : Option String
  day_of_week : String
  start_time : String
  end_time : String
  location : Option String
  notes : Option String
deriving Repr, DecidableEq

/-- The oldValues argument of the synchronizer: snapshot of the teacher slot
before the change (day/start/end only, as passed by the approve endpoint). -/
structure OldValues where
  day_of_week : Option String
  start_time : Option String
  end_time : Option String
deriving Repr, DecidableEq

/-- The completeness guard on oldValues in the source:
oldValues and oldValues.day_of_week and oldValues.start_time and oldValues.end_time. -/
def oldComplete : Option OldValues → Bool
  | none => false
  | some v => truthy v.day_of_week && truthy v.start_time && truthy v.end_time

/-- Exact match of a candidate against the OLD snapshot on (day, start, end). -/
def matchesOld (v : OldValues) (s : CourseSlot) : Bool :=
  some s.day_of_week == v.day_of_week &&
  some s.start_time == v.start_time &&
  some s.end_time == v.end_time

/-- Day-only match of a candidate against the OLD snapshot. -/
def matchesDayOld (v : OldValues) (s : CourseSlot) : Bool :=
  some s.day_of_week == v.day_of_week

/-- Exact match of a candidate against the NEW teacher-slot values. -/
def matchesNew (ts : TeacherSlot) (s : CourseSlot) : Bool :=
  s.day_of_week == ts.day_of_week &&
  s.start_time == ts.start_time &&
  s.end_time == ts.end_time

/-- The candidate fetch: all course_schedule_slots rows with this
(course_id, teacher_id) pair. -/
def listCourseSlotsFor (db : List CourseSlot) (cid tid : Option String) : List CourseSlot :=
  db.filter (fun s => s.course_id == cid && s.teacher_id == tid)

/-- Update payload written to a course slot by the synchronizer. -/
structure CourseSlotUpdate where
  day_of_week : String
  start_time : String
  end_time : String
  location : Option String
  notes : Option String
deriving Repr, DecidableEq

/-- The synchronizer's update payload: the teacher slot's new values, with
falsy location/notes stored as null. -/
def mkCourseSlotUpdate (ts : TeacherSlot) : CourseSlotUpdate :=
  { day_of_week := ts.day_of_week
    start_time := ts.start_time
    end_time := ts.end_time
    location := normOpt ts.location
    notes := normOpt ts.notes }

/-- The row inserted by the synchronizer's creation fallback (id generated by
the store, modelled by the freshId argument). -/
def mkInsertedRow (ts : TeacherSlot) (freshId : String) : CourseSlot :=
  { id := freshId
    course_id := ts.course_id
    teacher_id := ts.teacher_id
    day_of_week := ts.day_of_week
    start_time := ts.start_time
    end_time := ts.end_time
    location := normOpt ts.location
    notes := normOpt ts.notes }

/-- Outcome decided by the synchronizer: do nothing, update one candidate in
place, or insert one new row. -/
inductive SyncAction where
  | noop
  | update (targetId : String) (u : CourseSlotUpdate)
  | insert (u : CourseSlotUpdate)
deriving Repr, DecidableEq

/-- Strategy 1 of the source (old values complete): prefer the candidate
exactly matching the OLD values; else the first candidate matching the OLD day
but only when the candidate list has exactly one element; else the sole
candidate when exactly one exists. -/
def pickUpdateTargetOld (v : OldValues) (cands : List CourseSlot) : Option CourseSlot :=
  match cands.find? (matchesOld v) with
  | some c => some c
  | none =>
      match cands.find? (matchesDayOld v) with
      | some c => if cands.length == 1 then some c else none
      | none => if cands.length == 1 then cands.head? else none

/-- The creation fallback at the end of the source: skip when a candidate
already carries the NEW values, otherwise insert. -/
def syncInsertPhase (ts : TeacherSlot) (cands : List CourseSlot) : SyncAction :=
  if (cands.find? (matchesNew ts)).isSome then .noop
  else .insert (mkCourseSlotUpdate ts)

/-- Strategy 2 of the source (no complete old values): no-op when a candidate
already carries the NEW values; else update the sole candidate when exactly
one exists; else fall through to the creation fallback. -/
def syncDecideNoOld (ts : TeacherSlot) (cands : List CourseSlot) : SyncAction :=
  if (cands.find? (matchesNew ts)).isSome then .noop
  else if cands.length == 1 then
    match cands.head? with
    | some c => .update c.id (mkCourseSlotUpdate ts)
    | none => .noop
  else syncInsertPhase ts cands

/-- The synchronizer's full decision, given the fetched candidate list. -/
def syncDecide (ts : TeacherSlot) (old : Option OldValues) (cands : List CourseSlot) :
    SyncAction :=
  if oldComplete old then
    match old with
    | some v =>
        match pickUpdateTargetOld v cands with
        | some c => .update c.id (mkCourseSlotUpdate ts)
        | none => syncInsertPhase ts cands
    | none => syncDecideNoOld ts cands
  else syncDecideNoOld ts cands

/-- In-place update of one course-slot row (matched by id), writing exactly
day/start/end/location/notes. -/
def applyCourseSlotUpdate (db : List CourseSlot) (targetId : String)
    (u : CourseSlotUpdate) : List CourseSlot :=
  db.map fun s =>
    if s.id == targetId then
      { s with
        day_of_week := u.day_of_week
        start_time := u.start_time
        end_time := u.end_time
        location := u.location
        notes := u.notes }
    else s

/-- Failure flags for the three store operations the synchronizer checks
errors on: the candidate fetch, the course-slot update, the course-slot
insert. -/
structure SyncEnv where
  findFails : Bool
  updateFails : Bool
  insertFails : Bool
deriving Repr, DecidableEq

/-- Environment in which every store operation succeeds. -/
def SyncEnv.ok : SyncEnv := ⟨false, false, false⟩

/-- Write operations issued against the two schedule tables (trace of the
store calls a run makes; reads are not traced). -/
inductive StoreWrite where
  | wTeacherSlotUpdate (slotId : String)
  | wCourseSlotUpdate (slotId : String) (u : CourseSlotUpdate)
  | wCourseSlotInsert (row : CourseSlot)
deriving Repr, DecidableEq

/-- Shallow embedding of syncTeacherSlotToCourseSlot.  Arguments: failure
environment, current course_schedule_slots table, the (already updated)
teacher slot, the optional old snapshot, a fresh id for a possible insert.
Returns the new course table together with the trace of issued writes.  All
failures are swallowed: the function always returns normally. -/
def syncTeacherSlotToCourseSlot (env : SyncEnv) (db : List CourseSlot)
    (ts : TeacherSlot) (old : Option OldValues) (freshId : String) :
    List CourseSlot × List StoreWrite :=
  if !(truthy ts.course_id) || !(truthy ts.teacher_id) then (db, [])
  else if env.findFails then (db, [])
  else
    match syncDecide ts old (listCourseSlotsFor db ts.course_id ts.teacher_id) with
    | .noop => (db, [])
    | .update tid u =>
        ((if env.updateFails then db else applyCourseSlotUpdate db tid u),
         [.wCourseSlotUpdate tid u])
    | .insert _ =>
        ((if env.insertFails then db else db ++ [mkInsertedRow ts freshId]),
         [.wCourseSlotInsert (mkInsertedRow ts freshId)])

/-- Status column of a schedule_change_requests row. -/
inductive ReqStatus where
  | pending
  | approved
  | declined
deriving Repr, DecidableEq, BEq

/-- Row of the schedule_change_requests table. -/
structure ChangeRequest where
  id : String
  slot_id : String
  teacher_id : String
  course_id : Option String
  current_day_of_week : Option String
  current_start_time : Option String
  current_end_time : Option String
  requested_day_of_week : Option String
  requested_start_time : Option String
  requested_end_time : Option String
  reason : String
  status : ReqStatus
  approved_by : Option String
  approved_at : Option String
  declined_by : Option String
  declined_at : Option String
  declined_reason : Option String
deriving Repr, DecidableEq

/-- Row of the notifications table (the columns the workflow writes). -/
structure Notification where
  recipient_id : String
  sender_id : String
  title : String
  message : String
  channels : List String
  audience_scope : String
  course_id : Option String
deriving Repr, DecidableEq

/-- Row of the course_students enrollment table. -/
structure Enrollment where
  course_id : Option String
  student_id : Option String
deriving Repr, DecidableEq

/-- Row of the courses table (the columns the workflow reads). -/
structure Course where
  id : String
  name : String
deriving Repr, DecidableEq

/-- Events emitted on the live-update channel. -/
inductive Event where
  | scheduleUpdated (teacherId slotId : String) (courseId : Option String)
  | teacherNotificationsRefresh (teacherId : String)
  | adminNotificationsRefresh (eventType : String)
  | studentTimetableRefresh (courseId : Option String)
  | studentNotificationsRefresh (courseId : Option String)
deriving Repr, DecidableEq

/-- The persistent state the workflow reads and writes, plus the list of
emitted live events (append-only). -/
structure World where
  requests : List ChangeRequest
  teacherSlots : List TeacherSlot
  courseSlots : List CourseSlot
  notifications : List Notification
  enrollments : List Enrollment
  courses : List Course
  events : List Event
deriving Repr, DecidableEq

/-- HTTP statuses the embedded endpoints can answer with. -/
inductive HttpStatus where
  | ok200
  | badRequest400
  | notFound404
  | serverError500
deriving Repr, DecidableEq

/-- Failure flags for the store operations whose errors change control flow in
the approve endpoint: the request fetch (throws, 500) and the teacher-slot
update (throws, 500).  Synchronizer-internal failures are in the sync field. -/
structure Env where
  fetchRequestFails : Bool
  updateTeacherSlotFails : Bool
  sync : SyncEnv
deriving Repr, DecidableEq

/-- Environment in which every store operation succeeds. -/
def Env.ok : Env := ⟨false, false, SyncEnv.ok⟩

/-- Whether any requested field is present (truthy) on the request: the
condition under which the approve endpoint builds a non-empty update object. -/
def anyRequested (r : ChangeRequest) : Bool :=
  truthy r.requested_day_of_week ||
  truthy r.requested_start_time ||
  truthy r.requested_end_time

/-- The teacher-slot update applied by approve: each of day/start/end is
overwritten exactly when the corresponding requested field is truthy. -/
def applySlotUpdates (r : ChangeRequest) (s : TeacherSlot) : TeacherSlot :=
  { s with
    day_of_week :=
      if truthy r.requested_day_of_week then r.requested_day_of_week.getD s.day_of_week
      else s.day_of_week
    start_time :=
      if truthy r.requested_start_time then r.requested_start_time.getD s.start_time
      else s.start_time
    end_time :=
      if truthy r.requested_end_time then r.requested_end_time.getD s.end_time
      else s.end_time }

/-- JavaScript template interpolation of a nullable string. -/
def jsStr : Option String → String
  | none => "null"
  | some s => s

/-- The predicate of the pending-request fetch in approve and decline:
id equals the route parameter and status is pending. -/
def isPendingWithId (requestId : String) (q : ChangeRequest) : Bool :=
  q.id == requestId && q.status == ReqStatus.pending

/-- Marking a request approved, recording approver and time. -/
def markApproved (adminId now : String) (q : ChangeRequest) : ChangeRequest :=
  { q with status := .approved, approved_by := some adminId, approved_at := some now }

/-- Marking a request declined, recording decliner, time and reason
(falsy reason stored as null). -/
def markDeclined (adminId now : String) (declineReason : Option String)
    (q : ChangeRequest) : ChangeRequest :=
  { q with
    status := .declined
    declined_by := some adminId
    declined_at := some now
    declined_reason := normOpt declineReason }

/-- Course-name lookup used for the student notification text, defaulting to
"the course" when the request has no course or the course row is missing. -/
def courseNameFor (w : World) (r : ChangeRequest) : String :=
  if truthy r.course_id then
    match w.courses.find? (fun c => some c.id == r.course_id) with
    | some c => c.name
    | none => "the course"
  else "the course"

/-- Teacher notification inserted by approve when a slot update was applied. -/
def approveChangedNotification (r : ChangeRequest) (adminId : String)
    (updated : TeacherSlot) : Notification :=
  { recipient_id := r.teacher_id
    sender_id := adminId
    title := "Schedule Change Approved"
    message := "Your schedule change request has been approved. Your slot has been updated from "
      ++ jsStr r.current_day_of_week ++ " " ++ jsStr r.current_start_time ++ "-"
      ++ jsStr r.current_end_time ++ " to " ++ updated.day_of_week ++ " "
      ++ updated.start_time ++ "-" ++ updated.end_time ++ "."
    channels := ["in_app"]
    audience_scope := "custom"
    course_id := r.course_id }

/-- Teacher notification inserted by approve when no requested field was
present (no slot update path). -/
def approveNoChangeNotification (r : ChangeRequest) (adminId : String) : Notification :=
  { recipient_id := r.teacher_id
    sender_id := adminId
    title := "Schedule Change Approved"
    message := "Your schedule change request has been approved. No changes were needed."
    channels := ["in_app"]
    audience_scope := "custom"
    course_id := r.course_id }

/-- Per-student notification inserted by approve for each enrolled student. -/
def studentScheduleNotification (w : World) (r : ChangeRequest) (adminId : String)
    (updated : TeacherSlot) (studentId : String) : Notification :=
  { recipient_id := studentId
    sender_id := adminId
    title := "Class Schedule Changed"
    message := "Your class \"" ++ courseNameFor w r ++ "\" schedule has been rescheduled from "
      ++ jsStr r.current_day_of_week ++ " " ++ jsStr r.current_start_time ++ "-"
      ++ jsStr r.current_end_time ++ " to " ++ updated.day_of_week ++ " "
      ++ updated.start_time ++ "-" ++ updated.end_time
      ++ ". Please update your calendar accordingly."
    channels := ["in_app"]
    audience_scope := "course"
    course_id := r.course_id }

/-- Enrolled student ids for the request's course: map to student_id and keep
only truthy values (the filter(Boolean) in the source). -/
def enrolledStudentIds (w : World) (r : ChangeRequest) : List String :=
  ((w.enrollments.filter (fun e => e.course_id == r.course_id)).map
    Enrollment.student_id).filterMap
      (fun o => match o with
        | some v => if v == "" then none else some v
        | none => none)

/-- Notification inserted by decline: the message carries the reason exactly
when a truthy decline reason was given. -/
def declineNotification (r : ChangeRequest) (adminId : String)
    (declineReason : Option String) : Notification :=
  { recipient_id := r.teacher_id
    sender_id := adminId
    title := "Schedule Change Declined"
    message := "Your schedule change request has been declined."
      ++ (if truthy declineReason then " Reason: " ++ declineReason.getD "" else "")
    channels := ["in_app"]
    audience_scope := "custom"
    course_id := r.course_id }

/-- Shallow embedding of POST /admin/schedule-change/:requestId/approve.
Returns the new world, the HTTP status, and the trace of schedule-table
writes issued (teacher-slot update plus the synchronizer's writes). -/
def approve (env : Env) (w : World) (requestId adminId now freshId : String) :
    World × HttpStatus × List StoreWrite :=
  if env.fetchRequestFails then (w, .serverError500, [])
  else
    match w.requests.find? (isPendingWithId requestId) with
    | none => (w, .notFound404, [])
    | some r =>
      if anyRequested r then
        match w.teacherSlots.find? (fun s => s.id == r.slot_id) with
        | none => (w, .serverError500, [.wTeacherSlotUpdate r.slot_id])
        | some s =>
          if env.updateTeacherSlotFails then
            (w, .serverError500, [.wTeacherSlotUpdate r.slot_id])
          else
            let updated := applySlotUpdates r s
            let w1 := { w with
              teacherSlots := w.teacherSlots.map
                (fun t : TeacherSlot => if t.id == r.slot_id then applySlotUpdates r t else t) }
            let oldV : OldValues :=
              ⟨r.current_day_of_week, r.current_start_time, r.current_end_time⟩
            let sres := syncTeacherSlotToCourseSlot env.sync w1.courseSlots updated
              (some oldV) freshId
            let w2 := { w1 with courseSlots := sres.1 }
            let w3 := { w2 with
              requests := w2.requests.map
                (fun q : ChangeRequest => if q.id == requestId then markApproved adminId now q else q) }
            let w4 := { w3 with
              notifications := w3.notifications
                ++ [approveChangedNotification r adminId updated] }
            let sids := enrolledStudentIds w r
            let w5 :=
              if truthy r.course_id && !sids.isEmpty then
                { w4 with
                  notifications := w4.notifications
                    ++ sids.map (studentScheduleNotification w r adminId updated) }
              else w4
            let w6 := { w5 with
              events := w5.events
                ++ [Event.scheduleUpdated r.teacher_id r.slot_id r.course_id,
                    Event.teacherNotificationsRefresh r.teacher_id,
                    Event.adminNotificationsRefresh "schedule_change_approved"]
                ++ (if truthy r.course_id then
                      [Event.studentTimetableRefresh r.course_id,
                       Event.studentNotificationsRefresh r.course_id]
                    else []) }
            (w6, .ok200, .wTeacherSlotUpdate r.slot_id :: sres.2)
      else
        let w1 := { w with
          requests := w.requests.map
            (fun q : ChangeRequest => if q.id == requestId then markApproved adminId now q else q) }
        let w2 := { w1 with
          notifications := w1.notifications ++ [approveNoChangeNotification r adminId] }
        let w3 := { w2 with
          events := w2.events ++ [Event.teacherNotificationsRefresh r.teacher_id] }
        (w3, .ok200, [])

/-- Shallow embedding of POST /admin/schedule-change/:requestId/decline. -/
def decline (env : Env) (w : World) (requestId adminId : String)
    (declineReason : Option String) (now : String) : World × HttpStatus :=
  if env.fetchRequestFails then (w, .serverError500)
  else
    match w.requests.find? (isPendingWithId requestId) with
    | none => (w, .notFound404)
    | some r =>
      let w1 := { w with
        requests := w.requests.map
          (fun q : ChangeRequest => if q.id == requestId then markDeclined adminId now declineReason q
                    else q) }
      let w2 := { w1 with
        notifications := w1.notifications ++ [declineNotification r adminId declineReason] }
      let w3 := { w2 with
        events := w2.events
          ++ [Event.teacherNotificationsRefresh r.teacher_id,
              Event.adminNotificationsRefresh "schedule_change_declined"] }
      (w3, .ok200)

/-- Body of POST /teacher/timetable/request-change. -/
structure SubmitBody where
  slotId : Option String
  requestedDayOfWeek : Option String
  requestedStartTime : Option String
  requestedEndTime : Option String
  reason : Option String
deriving Repr, DecidableEq

/-- The request row persisted by a successful submit: current values are a
snapshot of the slot, requested fields and course id normalize falsy to null,
status starts pending. -/
def mkSubmittedRequest (body : SubmitBody) (userId : String) (slotRow : TeacherSlot)
    (newRequestId : String) : ChangeRequest :=
  { id := newRequestId
    slot_id := body.slotId.getD ""
    teacher_id := userId
    course_id := normOpt slotRow.course_id
    current_day_of_week := some slotRow.day_of_week
    current_start_time := some slotRow.start_time
    current_end_time := some slotRow.end_time
    requested_day_of_week := normOpt body.requestedDayOfWeek
    requested_start_time := normOpt body.requestedStartTime
    requested_end_time := normOpt body.requestedEndTime
    reason := body.reason.getD ""
    status := .pending
    approved_by := none
    approved_at := none
    declined_by := none
    declined_at := none
    declined_reason := none }

/-- Shallow embedding of POST /teacher/timetable/request-change. -/
def submitRequestChange (w : World) (userId : String) (body : SubmitBody)
    (newRequestId : String) : World × HttpStatus :=
  if !(truthy body.slotId) || !(truthy body.reason) then (w, .badRequest400)
  else
    match w.teacherSlots.find?
      (fun s => some s.id == body.slotId && s.teacher_id == some userId) with
    | none => (w, .notFound404)
    | some slotRow =>
      let w1 := { w with
        requests := w.requests ++ [mkSubmittedRequest body userId slotRow newRequestId] }
      let w2 := { w1 with
        events := w1.events ++ [Event.adminNotificationsRefresh "schedule_change_request"] }
      (w2, .ok200)

/-- Example teacher slot with new values Thursday 11:00-12:00 for course C,
teacher T. -/
def exTeacherSlot : TeacherSlot :=
  { id := "ts1", teacher_id := some "T", course_id := some "C",
    day_of_week := "Thursday", start_time := "11:00", end_time := "12:00",
    location := none, notes := none }

/-- Example course-slot candidate, Monday 09:00-10:00. -/
def exCand1 : CourseSlot :=
  { id := "cs1", course_id := some "C", teacher_id := some "T",
    day_of_week := "Monday", start_time := "09:00", end_time := "10:00",
    location := none, notes := none }

/-- Example course-slot candidate, Tuesday 09:00-10:00. -/
def exCand2 : CourseSlot :=
  { id := "cs2", course_id := some "C", teacher_id := some "T",
    day_of_week := "Tuesday", start_time := "09:00", end_time := "10:00",
    location := none, notes := none }

/-- Example course-slot candidate carrying exactly the new values of
exTeacherSlot. -/
def exCandNew : CourseSlot :=
  { id := "cs9", course_id := some "C", teacher_id := some "T",
    day_of_week := "Thursday", start_time := "11:00", end_time := "12:00",
    location := none, notes := none }

/-- Old snapshot Wednesday 09:00-10:00: matches neither exCand1 nor exCand2,
not even by day. -/
def exOldNoMatch : OldValues := ⟨some "Wednesday", some "09:00", some "10:00"⟩

/-- Old snapshot Monday 08:00-09:00: shares exCand1's day but not its times. -/
def exOldDayMatch : OldValues := ⟨some "Monday", some "08:00", some "09:00"⟩

/-- Example teacher-owned slot S1, Tuesday 10:00-11:00, course C1, teacher T1. -/
def exSlotS1 : TeacherSlot :=
  { id := "S1", teacher_id := some "T1", course_id := some "C1",
    day_of_week := "Tuesday", start_time := "10:00", end_time := "11:00",
    location := none, notes := none }

/-- Example course-side mirror of exSlotS1. -/
def exCourseSlotC1 : CourseSlot :=
  { id := "cc1", course_id := some "C1", teacher_id := some "T1",
    day_of_week := "Tuesday", start_time := "10:00", end_time := "11:00",
    location := none, notes := none }

/-- Example pending request R1 asking to move S1 to Wednesday 14:00-15:00. -/
def exPendingReq : ChangeRequest :=
  { id := "R1", slot_id := "S1", teacher_id := "T1", course_id := some "C1",
    current_day_of_week := some "Tuesday", current_start_time := some "10:00",
    current_end_time := some "11:00",
    requested_day_of_week := some "Wednesday", requested_start_time := some "14:00",
    requested_end_time := some "15:00",
    reason := "room conflict", status := .pending,
    approved_by := none, approved_at := none,
    declined_by := none, declined_at := none, declined_reason := none }

/-- Example pending request R2 with no requested fields. -/
def exNoChangeReq : ChangeRequest :=
  { exPendingReq with
    id := "R2"
    requested_day_of_week := none
    requested_start_time := none
    requested_end_time := none
    reason := "please review" }

/-- Example already-approved request R3. -/
def exApprovedReq : ChangeRequest :=
  { exPendingReq with
    id := "R3"
    status := .approved
    approved_by := some "A0"
    approved_at := some "t0" }

/-- Example world holding the three requests, one teacher slot, its course
mirror, one enrolled student and one course row. -/
def exWorld : World :=
  { requests := [exPendingReq, exNoChangeReq, exApprovedReq],
    teacherSlots := [exSlotS1],
    courseSlots := [exCourseSlotC1],
    notifications := [],
    enrollments := [⟨some "C1", some "ST1"⟩],
    courses := [⟨"C1", "Algebra"⟩],
    events := [] }

/-- Environment in which the teacher-slot update fails. -/
def exEnvSlotFail : Env := ⟨false, true, SyncEnv.ok⟩

/-- Environment in which every synchronizer-internal operation fails. -/
def exEnvSyncFail : Env := ⟨false, false, ⟨true, true, true⟩⟩

/-- Example valid submit body for slot S1. -/
def exSubmitBody : SubmitBody :=
  { slotId := some "S1", requestedDayOfWeek := some "Wednesday",
    requestedStartTime := some "14:00", requestedEndTime := some "15:00",
    reason := some "room conflict" }

/-! Helper lemmas about the synchronizer's decision. -/

/-- A target picked by strategy 1 is one of the fetched candidates. -/
theorem pickUpdateTargetOld_mem {v : OldValues} {cands : List CourseSlot} {c : CourseSlot}
    (h : pickUpdateTargetOld v cands = some c) : c ∈ cands := by
  unfold pickUpdateTargetOld at h
  cases h1 : cands.find? (matchesOld v) with
  | some c1 =>
      simp only [h1] at h
      exact (Option.some_inj.mp h) ▸ List.mem_of_find?_eq_some h1
  | none =>
      simp only [h1] at h
      cases h2 : cands.find? (matchesDayOld v) with
      | some c2 =>
          simp only [h2] at h
          split at h
          · exact (Option.some_inj.mp h) ▸ List.mem_of_find?_eq_some h2
          · exact absurd h (by simp)
      | none =>
          simp only [h2] at h
          split at h
          · cases cands with
            | nil => simp [List.head?] at h
            | cons a t => simp only [List.head?] at h; exact (Option.some_inj.mp h) ▸ List.mem_cons_self a t
          · exact absurd h (by simp)

/-- The creation fallback never issues an update. -/
theorem syncInsertPhase_ne_update {ts : TeacherSlot} {cands : List CourseSlot}
    {tid : String} {u : CourseSlotUpdate} :
    syncInsertPhase ts cands ≠ SyncAction.update tid u := by
  unfold syncInsertPhase
  split <;> simp

/-- Any update decided by strategy 2 targets a candidate and carries the
teacher slot's new values. -/
theorem syncDecideNoOld_update_shape {ts : TeacherSlot} {cands : List CourseSlot}
    {tid : String} {u : CourseSlotUpdate}
    (h : syncDecideNoOld ts cands = SyncAction.update tid u) :
    u = mkCourseSlotUpdate ts ∧ ∃ c ∈ cands, c.id = tid := by
  unfold syncDecideNoOld at h
  split at h
  · exact absurd h (by simp)
  · split at h
    · cases hh : cands.head? with
      | none => simp only [hh] at h; exact absurd h (by simp)
      | some c =>
          simp only [hh] at h
          cases cands with
          | nil => simp [List.head?] at hh
          | cons a t =>
              simp only [List.head?, Option.some_inj] at hh
              refine ⟨by cases h; rfl, a, List.mem_cons_self a t, ?_⟩
              cases h; rw [hh]
    · exact absurd h syncInsertPhase_ne_update

/-- Any update decided by the synchronizer targets a fetched candidate and
carries exactly the teacher slot's new values. -/
theorem syncDecide_update_shape {ts : TeacherSlot} {old : Option OldValues}
    {cands : List CourseSlot} {tid : String} {u : CourseSlotUpdate}
    (h : syncDecide ts old cands = SyncAction.update tid u) :
    u = mkCourseSlotUpdate ts ∧ ∃ c ∈ cands, c.id = tid := by
  unfold syncDecide at h
  split at h
  · cases old with
    | none => exact syncDecideNoOld_update_shape h
    | some v =>
        cases hp : pickUpdateTargetOld v cands with
        | none => simp only [hp] at h; exact absurd h syncInsertPhase_ne_update
        | some c =>
            simp only [hp] at h
            cases h
            exact ⟨rfl, c, pickUpdateTargetOld_mem hp, rfl⟩
  · exact syncDecideNoOld_update_shape h

/-- C6: create-intent idempotence of the Slot Synchronizer: when some fetched
candidate's (dayOfWeek, startTime, endTime) exactly equal the teacher slot's
new values, invoking the synchronizer with no old snapshot performs no update
and no insert, and re-running it any number of times leaves the course table
unchanged. -/
theorem sync_exact_new_match_noop (env : SyncEnv) (db : List CourseSlot)
    (ts : TeacherSlot) (freshId : String)
    (h : ∃ c ∈ listCourseSlotsFor db ts.course_id ts.teacher_id, matchesNew ts c = true) :
    syncTeacherSlotToCourseSlot env db ts none freshId = (db, []) ∧
    ∀ n : Nat,
      (fun d => (syncTeacherSlotToCourseSlot env d ts none freshId).1)^[n] db = db := by
  have hfind :
      ((listCourseSlotsFor db ts.course_id ts.teacher_id).find? (matchesNew ts)).isSome
        = true := by
    rw [List.find?_isSome]
    obtain ⟨c, hc, hm⟩ := h
    exact ⟨c, hc, hm⟩
  have h1 : syncTeacherSlotToCourseSlot env db ts none freshId = (db, []) := by
    unfold syncTeacherSlotToCourseSlot
    split
    · rfl
    · split
      · rfl
      · simp [syncDecide, oldComplete, syncDecideNoOld, hfind]
  refine ⟨h1, fun n => Function.iterate_fixed ?_ n⟩
  show (syncTeacherSlotToCourseSlot env db ts none freshId).1 = db
  rw [h1]

/-- Witness for sync_exact_new_match_noop at a concrete candidate set. -/
theorem sync_exact_new_match_noop_witness :
    syncTeacherSlotToCourseSlot SyncEnv.ok [exCand1, exCandNew] exTeacherSlot none "cs3" =
      ([exCand1, exCandNew], []) :=
  (sync_exact_new_match_noop SyncEnv.ok [exCand1, exCandNew] exTeacherSlot "cs3"
    ⟨exCandNew, by decide, by decide⟩).1

/-- C7: sole-candidate fallback: with a complete old snapshot, exactly one
fetched candidate, and that candidate matching the old snapshot neither
exactly nor by day, the synchronizer still updates the sole candidate in
place to the new values and inserts no new row. -/
theorem sync_sole_candidate_update (db : List CourseSlot) (ts : TeacherSlot)
    (v : OldValues) (freshId : String) (c : CourseSlot)
    (hcid : truthy ts.course_id = true) (htid : truthy ts.teacher_id = true)
    (hcomplete : oldComplete (some v) = true)
    (hcands : listCourseSlotsFor db ts.course_id ts.teacher_id = [c])
    (hnoexact : matchesOld v c = false)
    (hnoday : matchesDayOld v c = false) :
    syncTeacherSlotToCourseSlot SyncEnv.ok db ts (some v) freshId =
      (applyCourseSlotUpdate db c.id (mkCourseSlotUpdate ts),
       [StoreWrite.wCourseSlotUpdate c.id (mkCourseSlotUpdate ts)]) := by
  unfold syncTeacherSlotToCourseSlot
  rw [hcid, htid]
  simp only [SyncEnv.ok, Bool.not_true, Bool.or_self, Bool.false_eq_true, if_false]
  rw [hcands]
  simp [syncDecide, hcomplete, pickUpdateTargetOld, List.find?, hnoexact, hnoday]

/-- Witness for sync_sole_candidate_update at a concrete candidate set. -/
theorem sync_sole_candidate_update_witness :
    syncTeacherSlotToCourseSlot SyncEnv.ok [exCand1] exTeacherSlot (some exOldNoMatch) "cs3" =
      (applyCourseSlotUpdate [exCand1] exCand1.id (mkCourseSlotUpdate exTeacherSlot),
       [StoreWrite.wCourseSlotUpdate exCand1.id (mkCourseSlotUpdate exTeacherSlot)]) :=
  sync_sole_candidate_update [exCand1] exTeacherSlot exOldNoMatch "cs3" exCand1
    (by decide) (by decide) (by decide) (by decide) (by decide) (by decide)

/-- C1 counterexample: with two candidates, none matching the old snapshot
exactly or by day, the synchronizer does NOT leave the course table untouched:
it issues a write (an insert of the new values). -/
theorem sync_ambiguous_counterexample :
    2 ≤ (listCourseSlotsFor [exCand1, exCand2]
          exTeacherSlot.course_id exTeacherSlot.teacher_id).length ∧
    (∀ c ∈ listCourseSlotsFor [exCand1, exCand2]
          exTeacherSlot.course_id exTeacherSlot.teacher_id,
        matchesOld exOldNoMatch c = false ∧ matchesDayOld exOldNoMatch c = false) ∧
    syncTeacherSlotToCourseSlot SyncEnv.ok [exCand1, exCand2] exTeacherSlot
        (some exOldNoMatch) "cs3" ≠ ([exCand1, exCand2], []) := by
  decide

/-- C1 amended: with a complete old snapshot and two or more candidates, none
matching the old snapshot exactly or by day, the synchronizer updates no
candidate row; if some candidate already carries the new values it performs
no write at all, otherwise it inserts one new course-slot row with the new
values. -/
theorem sync_ambiguous_no_match_behavior (db : List CourseSlot) (ts : TeacherSlot)
    (v : OldValues) (freshId : String)
    (hcid : truthy ts.course_id = true) (htid : truthy ts.teacher_id = true)
    (hcomplete : oldComplete (some v) = true)
    (hlen : 2 ≤ (listCourseSlotsFor db ts.course_id ts.teacher_id).length)
    (hnoexact : (listCourseSlotsFor db ts.course_id ts.teacher_id).find? (matchesOld v) = none)
    (hnoday : (listCourseSlotsFor db ts.course_id ts.teacher_id).find? (matchesDayOld v) = none) :
    ((listCourseSlotsFor db ts.course_id ts.teacher_id).find? (matchesNew ts) ≠ none →
        syncTeacherSlotToCourseSlot SyncEnv.ok db ts (some v) freshId = (db, [])) ∧
    ((listCourseSlotsFor db ts.course_id ts.teacher_id).find? (matchesNew ts) = none →
        syncTeacherSlotToCourseSlot SyncEnv.ok db ts (some v) freshId =
          (db ++ [mkInsertedRow ts freshId],
           [StoreWrite.wCourseSlotInsert (mkInsertedRow ts freshId)])) := by
  have hne : ((listCourseSlotsFor db ts.course_id ts.teacher_id).length == 1) = false := by
    rw [beq_eq_false_iff_ne]
    omega
  have hpick : pickUpdateTargetOld v (listCourseSlotsFor db ts.course_id ts.teacher_id)
      = none := by
    unfold pickUpdateTargetOld
    rw [hnoexact, hnoday, hne]
    simp
  constructor
  · intro hnew
    obtain ⟨c, hc⟩ := Option.ne_none_iff_exists'.mp hnew
    unfold syncTeacherSlotToCourseSlot
    rw [hcid, htid]
    simp [SyncEnv.ok, syncDecide, hcomplete, hpick, syncInsertPhase, hc]
  · intro hnew
    unfold syncTeacherSlotToCourseSlot
    rw [hcid, htid]
    simp [SyncEnv.ok, syncDecide, hcomplete, hpick, syncInsertPhase, hnew]

/-- Witness for sync_ambiguous_no_match_behavior at a concrete candidate set. -/
theorem sync_ambiguous_no_match_behavior_witness :
    syncTeacherSlotToCourseSlot SyncEnv.ok [exCand1, exCand2] exTeacherSlot
        (some exOldNoMatch) "cs3" =
      ([exCand1, exCand2] ++ [mkInsertedRow exTeacherSlot "cs3"],
       [StoreWrite.wCourseSlotInsert (mkInsertedRow exTeacherSlot "cs3")]) :=
  (sync_ambiguous_no_match_behavior [exCand1, exCand2] exTeacherSlot exOldNoMatch "cs3"
    (by decide) (by decide) (by decide) (by decide) (by decide) (by decide)).2 (by decide)

/-- C2 counterexample: two candidates, exactly one of which shares the old
snapshot's day (with differing times), and no exact match: the synchronizer
does not update that candidate; it inserts a new row and leaves both
candidates unchanged. -/
theorem sync_day_match_counterexample :
    ((listCourseSlotsFor [exCand1, exCand2]
        exTeacherSlot.course_id exTeacherSlot.teacher_id).filter
          (matchesDayOld exOldDayMatch)).length = 1 ∧
    (listCourseSlotsFor [exCand1, exCand2]
        exTeacherSlot.course_id exTeacherSlot.teacher_id).find?
          (matchesOld exOldDayMatch) = none ∧
    syncTeacherSlotToCourseSlot SyncEnv.ok [exCand1, exCand2] exTeacherSlot
        (some exOldDayMatch) "cs3" =
      ([exCand1, exCand2, mkInsertedRow exTeacherSlot "cs3"],
       [StoreWrite.wCourseSlotInsert (mkInsertedRow exTeacherSlot "cs3")]) := by
  decide

/-- C2 amended: the day-match rule selects a target only when the fetched
candidate set has exactly one element (in which case that sole candidate is
updated in place with the new values); with two or more candidates and no
exact old-snapshot match, no candidate row is ever updated, regardless of day
matches. -/
theorem sync_day_match_requires_sole_candidate (v : OldValues) (ts : TeacherSlot)
    (freshId : String) :
    (∀ (db : List CourseSlot) (c : CourseSlot),
      truthy ts.course_id = true → truthy ts.teacher_id = true →
      oldComplete (some v) = true →
      listCourseSlotsFor db ts.course_id ts.teacher_id = [c] →
      matchesOld v c = false → matchesDayOld v c = true →
      syncTeacherSlotToCourseSlot SyncEnv.ok db ts (some v) freshId =
        (applyCourseSlotUpdate db c.id (mkCourseSlotUpdate ts),
         [StoreWrite.wCourseSlotUpdate c.id (mkCourseSlotUpdate ts)])) ∧
    (∀ (env : SyncEnv) (db : List CourseSlot) (tid : String) (u : CourseSlotUpdate),
      oldComplete (some v) = true →
      2 ≤ (listCourseSlotsFor db ts.course_id ts.teacher_id).length →
      (listCourseSlotsFor db ts.course_id ts.teacher_id).find? (matchesOld v) = none →
      StoreWrite.wCourseSlotUpdate tid u ∉
        (syncTeacherSlotToCourseSlot env db ts (some v) freshId).2) := by
  constructor
  · intro db c hcid htid hcomplete hcands hnoexact hday
    unfold syncTeacherSlotToCourseSlot
    rw [hcid, htid]
    simp only [SyncEnv.ok, Bool.not_true, Bool.or_self, Bool.false_eq_true, if_false]
    rw [hcands]
    simp [syncDecide, hcomplete, pickUpdateTargetOld, List.find?, hnoexact, hday]
  · intro env db tid u hcomplete hlen hnoexact
    have hne : ((listCourseSlotsFor db ts.course_id ts.teacher_id).length == 1) = false := by
      rw [beq_eq_false_iff_ne]
      omega
    have hpick : pickUpdateTargetOld v (listCourseSlotsFor db ts.course_id ts.teacher_id)
        = none := by
      unfold pickUpdateTargetOld
      rw [hnoexact]
      cases h2 : (listCourseSlotsFor db ts.course_id ts.teacher_id).find? (matchesDayOld v)
        <;> simp [hne]
    unfold syncTeacherSlotToCourseSlot
    split
    · simp
    · split
      · simp
      · simp only [syncDecide, hcomplete, if_true, hpick, syncInsertPhase]
        cases hnew :
          ((listCourseSlotsFor db ts.course_id ts.teacher_id).find? (matchesNew ts)).isSome
        · simp [hnew]
        · simp [hnew]

/-- Witness for sync_day_match_requires_sole_candidate at a concrete sole
candidate whose day matches the old snapshot. -/
theorem sync_day_match_requires_sole_candidate_witness :
    syncTeacherSlotToCourseSlot SyncEnv.ok [exCand1] exTeacherSlot (some exOldDayMatch) "cs3" =
      (applyCourseSlotUpdate [exCand1] exCand1.id (mkCourseSlotUpdate exTeacherSlot),
       [StoreWrite.wCourseSlotUpdate exCand1.id (mkCourseSlotUpdate exTeacherSlot)]) :=
  (sync_day_match_requires_sole_candidate exOldDayMatch exTeacherSlot "cs3").1 [exCand1] exCand1
    (by decide) (by decide) (by decide) (by decide) (by decide) (by decide)

/-- Run lemma: when the teacher slot lacks a truthy course or teacher id, the
synchronizer does nothing. -/
theorem sync_run_skip (env : SyncEnv) (db : List CourseSlot) (ts : TeacherSlot)
    (old : Option OldValues) (freshId : String)
    (hg : (!(truthy ts.course_id) || !(truthy ts.teacher_id)) = true) :
    syncTeacherSlotToCourseSlot env db ts old freshId = (db, []) := by
  simp [syncTeacherSlotToCourseSlot, hg]

/-- Run lemma: a failed candidate fetch is swallowed and nothing is written. -/
theorem sync_run_findFail (env : SyncEnv) (db : List CourseSlot) (ts : TeacherSlot)
    (old : Option OldValues) (freshId : String)
    (hg : (!(truthy ts.course_id) || !(truthy ts.teacher_id)) = false)
    (hf : env.findFails = true) :
    syncTeacherSlotToCourseSlot env db ts old freshId = (db, []) := by
  simp [syncTeacherSlotToCourseSlot, hg, hf]

/-- Run lemma: with ids present and a successful fetch, the run is determined
by the decision on the fetched candidates. -/
theorem sync_run_decide (env : SyncEnv) (db : List CourseSlot) (ts : TeacherSlot)
    (old : Option OldValues) (freshId : String)
    (hg : (!(truthy ts.course_id) || !(truthy ts.teacher_id)) = false)
    (hf : env.findFails = false) :
    syncTeacherSlotToCourseSlot env db ts old freshId =
      match syncDecide ts old (listCourseSlotsFor db ts.course_id ts.teacher_id) with
      | .noop => (db, [])
      | .update tid u =>
          ((if env.updateFails then db else applyCourseSlotUpdate db tid u),
           [.wCourseSlotUpdate tid u])
      | .insert _ =>
          ((if env.insertFails then db else db ++ [mkInsertedRow ts freshId]),
           [.wCourseSlotInsert (mkInsertedRow ts freshId)]) := by
  simp [syncTeacherSlotToCourseSlot, hg, hf]

/-- C10: write-shape invariant of the synchronizer: every invocation issues at
most one course-table write, either a single in-place update of one fetched
candidate or a single insert of one new row, never both and never a delete;
any written row carries exactly the new values (see mkCourseSlotUpdate and
mkInsertedRow); and rows of other (course, teacher) pairs are never touched. -/
theorem sync_write_shape (env : SyncEnv) (db : List CourseSlot) (ts : TeacherSlot)
    (old : Option OldValues) (freshId : String)
    (huniq : ∀ a ∈ db, ∀ b ∈ db, a.id = b.id → a = b) :
    (syncTeacherSlotToCourseSlot env db ts old freshId = (db, []) ∨
     (∃ c ∈ listCourseSlotsFor db ts.course_id ts.teacher_id,
        (syncTeacherSlotToCourseSlot env db ts old freshId).2 =
          [StoreWrite.wCourseSlotUpdate c.id (mkCourseSlotUpdate ts)] ∧
        ((syncTeacherSlotToCourseSlot env db ts old freshId).1 = db ∨
         (syncTeacherSlotToCourseSlot env db ts old freshId).1 =
           applyCourseSlotUpdate db c.id (mkCourseSlotUpdate ts))) ∨
     ((syncTeacherSlotToCourseSlot env db ts old freshId).2 =
        [StoreWrite.wCourseSlotInsert (mkInsertedRow ts freshId)] ∧
      ((syncTeacherSlotToCourseSlot env db ts old freshId).1 = db ∨
       (syncTeacherSlotToCourseSlot env db ts old freshId).1 =
         db ++ [mkInsertedRow ts freshId]))) ∧
    db.length ≤ (syncTeacherSlotToCourseSlot env db ts old freshId).1.length ∧
    (∀ s ∈ db, (s.course_id == ts.course_id && s.teacher_id == ts.teacher_id) = false →
       s ∈ (syncTeacherSlotToCourseSlot env db ts old freshId).1) := by
  cases hg : (!(truthy ts.course_id) || !(truthy ts.teacher_id)) with
  | true =>
      rw [sync_run_skip env db ts old freshId hg]
      exact ⟨Or.inl rfl, le_refl _, fun s hs _ => hs⟩
  | false =>
      cases hf : env.findFails with
      | true =>
          rw [sync_run_findFail env db ts old freshId hg hf]
          exact ⟨Or.inl rfl, le_refl _, fun s hs _ => hs⟩
      | false =>
          rw [sync_run_decide env db ts old freshId hg hf]
          cases hd : syncDecide ts old (listCourseSlotsFor db ts.course_id ts.teacher_id) with
          | noop => exact ⟨Or.inl rfl, le_refl _, fun s hs _ => hs⟩
          | update tid u =>
              obtain ⟨hu, c, hc, hcid⟩ := syncDecide_update_shape hd
              subst hu
              subst hcid
              have hmem : ∀ s ∈ db,
                  (s.course_id == ts.course_id && s.teacher_id == ts.teacher_id) = false →
                  s ∈ applyCourseSlotUpdate db c.id (mkCourseSlotUpdate ts) := by
                intro s hs hpair
                have h0 : c ∈ List.filter
                    (fun t => t.course_id == ts.course_id && t.teacher_id == ts.teacher_id)
                    db := hc
                have hcdb := List.mem_filter.mp h0
                have hsid : (s.id == c.id) = false := by
                  cases h : s.id == c.id
                  · rfl
                  · exfalso
                    have hseq : s = c := huniq s hs c hcdb.1 (by simpa using h)
                    rw [hseq, hcdb.2] at hpair
                    cases hpair
                unfold applyCourseSlotUpdate
                refine List.mem_map.mpr ⟨s, hs, ?_⟩
                rw [hsid]
                simp
              cases hup : env.updateFails with
              | true =>
                  exact ⟨Or.inr (Or.inl ⟨c, hc, rfl, Or.inl rfl⟩), le_refl _,
                    fun s hs _ => hs⟩
              | false =>
                  refine ⟨Or.inr (Or.inl ⟨c, hc, rfl, Or.inr rfl⟩), ?_, hmem⟩
                  show db.length ≤ (applyCourseSlotUpdate db c.id (mkCourseSlotUpdate ts)).length
                  unfold applyCourseSlotUpdate
                  rw [List.length_map]
          | insert u =>
              cases hins : env.insertFails with
              | true =>
                  exact ⟨Or.inr (Or.inr ⟨rfl, Or.inl rfl⟩), le_refl _, fun s hs _ => hs⟩
              | false =>
                  refine ⟨Or.inr (Or.inr ⟨rfl, Or.inr rfl⟩), ?_,
                    fun s hs _ => List.mem_append_left _ hs⟩
                  simp

/-- Witness for sync_write_shape at a concrete input. -/
theorem sync_write_shape_witness :
    [exCand1].length ≤
      (syncTeacherSlotToCourseSlot SyncEnv.ok [exCand1] exTeacherSlot none "cs3").1.length :=
  (sync_write_shape SyncEnv.ok [exCand1] exTeacherSlot none "cs3" (by decide)).2.1

/-- C5: terminality of processed requests: when every request carrying the
given id is already approved or declined, a subsequent approve or decline
call returns 404 and mutates nothing — no request change, no slot update, no
notification insert, no event publish, no store write. -/
theorem processed_request_terminal (env : Env) (w : World)
    (requestId adminId now freshId : String) (declineReason : Option String)
    (hfetch : env.fetchRequestFails = false)
    (hdone : ∀ q ∈ w.requests, q.id = requestId →
      q.status = ReqStatus.approved ∨ q.status = ReqStatus.declined) :
    approve env w requestId adminId now freshId = (w, HttpStatus.notFound404, []) ∧
    decline env w requestId adminId declineReason now = (w, HttpStatus.notFound404) := by
  have hfind : w.requests.find? (isPendingWithId requestId) = none := by
    rw [List.find?_eq_none]
    intro q hq
    simp only [isPendingWithId, Bool.and_eq_true]
    rintro ⟨h1, h2⟩
    have h1eq : q.id = requestId := by simpa using h1
    rcases hdone q hq h1eq with h | h
    · rw [h] at h2
      exact absurd h2 (by decide)
    · rw [h] at h2
      exact absurd h2 (by decide)
  constructor
  · simp [approve, hfetch, hfind]
  · simp [decline, hfetch, hfind]

/-- Witness for processed_request_terminal on the already-approved request R3. -/
theorem processed_request_terminal_witness :
    approve Env.ok exWorld "R3" "A1" "t1" "F1" = (exWorld, HttpStatus.notFound404, []) ∧
    decline Env.ok exWorld "R3" "A1" none "t1" = (exWorld, HttpStatus.notFound404) :=
  processed_request_terminal Env.ok exWorld "R3" "A1" "t1" "F1" none rfl (by decide)

/-- C3: approve issues a teacher-slot update exactly when at least one
requested field is present on the pending request (even if equal to the
current snapshot); with no requested field present it performs no slot write
and no synchronizer call, still marks the request approved with
approvedBy/approvedAt, inserts one teacher notification, and emits only a
teacher-notification refresh event. -/
theorem approve_update_iff_requested (w : World) (requestId adminId now freshId : String)
    (r : ChangeRequest)
    (hfind : w.requests.find? (isPendingWithId requestId) = some r) :
    (anyRequested r = true →
      StoreWrite.wTeacherSlotUpdate r.slot_id ∈
        (approve Env.ok w requestId adminId now freshId).2.2) ∧
    (anyRequested r = false →
      (approve Env.ok w requestId adminId now freshId).2.1 = HttpStatus.ok200 ∧
      (approve Env.ok w requestId adminId now freshId).2.2 = [] ∧
      (approve Env.ok w requestId adminId now freshId).1.teacherSlots = w.teacherSlots ∧
      (approve Env.ok w requestId adminId now freshId).1.courseSlots = w.courseSlots ∧
      (approve Env.ok w requestId adminId now freshId).1.requests =
        w.requests.map
          (fun q => if q.id == requestId then markApproved adminId now q else q) ∧
      (approve Env.ok w requestId adminId now freshId).1.notifications =
        w.notifications ++ [approveNoChangeNotification r adminId] ∧
      (approve Env.ok w requestId adminId now freshId).1.events =
        w.events ++ [Event.teacherNotificationsRefresh r.teacher_id]) := by
  constructor
  · intro hA
    cases hslot : w.teacherSlots.find? (fun s => s.id == r.slot_id) with
    | none => simp [approve, Env.ok, hfind, hA, hslot]
    | some s => simp [approve, Env.ok, hfind, hA, hslot]
  · intro hA
    simp [approve, Env.ok, hfind, hA]

/-- Witness for approve_update_iff_requested on the no-requested-fields
request R2. -/
theorem approve_update_iff_requested_witness :
    (approve Env.ok exWorld "R2" "A1" "t1" "F1").2.2 = [] :=
  ((approve_update_iff_requested exWorld "R2" "A1" "t1" "F1" exNoChangeReq
    (by decide)).2 (by decide)).2.1

/-- C4: error-handling asymmetry of approve: on a pending request with a
requested field and an existing slot, a failing teacher-slot update makes the
whole approve call answer 500, while arbitrary synchronizer-internal
failures (the env's sync flags are unconstrained) still let approve answer
200. -/
theorem approve_error_asymmetry (env : Env) (w : World)
    (requestId adminId now freshId : String) (r : ChangeRequest) (s : TeacherSlot)
    (hfetch : env.fetchRequestFails = false)
    (hfind : w.requests.find? (isPendingWithId requestId) = some r)
    (hreq : anyRequested r = true)
    (hslot : w.teacherSlots.find? (fun t => t.id == r.slot_id) = some s) :
    (env.updateTeacherSlotFails = true →
      (approve env w requestId adminId now freshId).2.1 = HttpStatus.serverError500) ∧
    (env.updateTeacherSlotFails = false →
      (approve env w requestId adminId now freshId).2.1 = HttpStatus.ok200) := by
  constructor
  · intro hup
    simp [approve, hfetch, hfind, hreq, hslot, hup]
  · intro hup
    simp [approve, hfetch, hfind, hreq, hslot, hup]

/-- Witness for approve_error_asymmetry: with every synchronizer-internal
operation failing, approve still reports success. -/
theorem approve_error_asymmetry_witness :
    (approve exEnvSyncFail exWorld "R1" "A1" "t1" "F1").2.1 = HttpStatus.ok200 :=
  (approve_error_asymmetry exEnvSyncFail exWorld "R1" "A1" "t1" "F1"
    exPendingReq exSlotS1 rfl (by decide) (by decide) (by decide)).2 rfl

/-- C8: decline frame property: on a pending request, decline marks it
declined with declinedBy/declinedAt/declinedReason, inserts exactly one
notification to the requesting teacher whose message carries the reason when
one is given, emits a teacher refresh and an admin-notification-refresh
event, and mutates neither schedule table. -/
theorem decline_frame (env : Env) (w : World) (requestId adminId now : String)
    (declineReason : Option String) (r : ChangeRequest)
    (hfetch : env.fetchRequestFails = false)
    (hfind : w.requests.find? (isPendingWithId requestId) = some r) :
    decline env w requestId adminId declineReason now =
      ({ w with
          requests := w.requests.map
            (fun q => if q.id == requestId then markDeclined adminId now declineReason q
                      else q)
          notifications := w.notifications ++ [declineNotification r adminId declineReason]
          events := w.events
            ++ [Event.teacherNotificationsRefresh r.teacher_id,
                Event.adminNotificationsRefresh "schedule_change_declined"] },
       HttpStatus.ok200) ∧
    (declineNotification r adminId declineReason).recipient_id = r.teacher_id ∧
    (∀ v, declineReason = some v → v ≠ "" →
      (declineNotification r adminId declineReason).message =
        "Your schedule change request has been declined. Reason: " ++ v) := by
  refine ⟨by simp [decline, hfetch, hfind], rfl, ?_⟩
  intro v hv hne
  rw [hv]
  simp only [declineNotification, truthy]
  rw [if_pos (by simpa using hne)]
  rw [Option.getD_some, ← String.append_assoc]
  rfl

/-- Witness for decline_frame on pending request R1 with a reason given. -/
theorem decline_frame_witness :
    (decline Env.ok exWorld "R1" "A1" (some "busy") "t1").2 = HttpStatus.ok200 := by
  have h := decline_frame Env.ok exWorld "R1" "A1" "t1" (some "busy") exPendingReq rfl
    (by decide)
  rw [h.1]

/-- C9 counterexample: a successful submit is NOT free of side effects beyond
persisting the request row: it emits an admin-notifications-refresh live
event in the synchronous path. -/
theorem submit_emits_event_counterexample :
    (submitRequestChange exWorld "T1" exSubmitBody "R9").2 = HttpStatus.ok200 ∧
    (submitRequestChange exWorld "T1" exSubmitBody "R9").1.events ≠ exWorld.events ∧
    (submitRequestChange exWorld "T1" exSubmitBody "R9").1.events =
      exWorld.events ++ [Event.adminNotificationsRefresh "schedule_change_request"] := by
  decide

/-- C9 amended: a successful submit persists exactly one new request row and
emits exactly one admin-notifications-refresh event; it inserts no
notification row and mutates neither schedule table. -/
theorem submit_effects (w : World) (userId : String) (body : SubmitBody)
    (newRequestId : String) (slotRow : TeacherSlot)
    (hsid : truthy body.slotId = true)
    (hreason : truthy body.reason = true)
    (hslot : w.teacherSlots.find?
      (fun s => some s.id == body.slotId && s.teacher_id == some userId) = some slotRow) :
    submitRequestChange w userId body newRequestId =
      ({ w with
          requests := w.requests ++ [mkSubmittedRequest body userId slotRow newRequestId]
          events := w.events ++ [Event.adminNotificationsRefresh "schedule_change_request"] },
       HttpStatus.ok200) := by
  simp [submitRequestChange, hsid, hreason, hslot]

/-- Witness for submit_effects at the example world. -/
theorem submit_effects_witness :
    submitRequestChange exWorld "T1" exSubmitBody "R9" =
      ({ exWorld with
          requests := exWorld.requests
            ++ [mkSubmittedRequest exSubmitBody "T1" exSlotS1 "R9"]
          events := exWorld.events
            ++ [Event.adminNotificationsRefresh "schedule_change_request"] },
       HttpStatus.ok200) :=
  submit_effects exWorld "T1" exSubmitBody "R9" exSlotS1 (by decide) (by decide) (by decide)

end Backend
